import Mathlib

/-!
Shallow embedding of the `AccountTokens` React component
(`src/packages/extension/src/ui/features/accountTokens/AccountTokens.tsx`).

The component is pure presentation glue: it reads a collection of hook values,
derives booleans (`showUpgradeBanner`, `showNoBalanceForUpgrade`,
`showBackupBanner`, `hasPendingTransactions`, `tokenListVariant`), registers a
few effects, and assembles a JSX tree.  We embed:

* the slice of `Account` the component touches (`toBaseWalletAccount`,
  `updateDeployTx`, and the externally computed `isDeprecated` flag);
* the ambient hook values as a `Hooks` record, holding exactly the values the
  external collaborators return to this component on a render;
* the derived booleans as definitions mirroring the source consts;
* the produced JSX tree as a `Render` record whose fields are the conditional
  children of the returned tree, with the error-boundary section kept as a
  nested structure (`TokenSection`) so that "the token list is wrapped by the
  boundary" is visible in the shape of the data;
* the `onRedeploy` callback, with the background `redeployAccount` service as
  a function parameter returning `Except` (the thrown path);
* the three effects the claims mention: the user-review timeout effect, the
  network-upgrade navigation effect, and the `hadPendingTransactions` ref
  effect.
-/

namespace AccountTokens

/-- Base wallet account data, as produced by `account.toBaseWalletAccount()`
and sent to the background `redeployAccount` service. -/
structure BaseWalletAccount where
  address : String
  networkId : String
deriving DecidableEq, Repr

/-- The slice of `Account` the component touches: the base account data, the
deploy-transaction state mutated by `updateDeployTx`, and the externally
computed `isDeprecated` flag (its implementation lives in
`shared/wallet.service`, outside this file, so it is carried as a field). -/
structure Account where
  base : BaseWalletAccount
  deployTx : Option String
  deprecated : Bool
deriving DecidableEq, Repr

/-- `isDeprecated(account)` from `shared/wallet.service` (external collaborator,
carried as account data). -/
def isDeprecated (a : Account) : Bool :=
  a.deprecated

/-- `account.toBaseWalletAccount()`. -/
def Account.toBaseWalletAccount (a : Account) : BaseWalletAccount :=
  a.base

/-- `account.updateDeployTx(txHash)`: records the deploy transaction hash. -/
def Account.updateDeployTx (a : Account) (txHash : String) : Account :=
  { a with deployTx := some txHash }

/-- Result returned by the background `redeployAccount` service on success. -/
structure DeployResult where
  txHash : String
deriving DecidableEq, Repr

/-- The `onRedeploy` callback.  The background service is a parameter returning
`Except`: `Except.error` is the thrown path.  On success the account's deploy
transaction is updated with the returned hash; a thrown error is swallowed
(the catch block is empty), so the function is total and returns the account
unchanged on error. -/
def onRedeploy (redeployAccount : BaseWalletAccount → Except String DeployResult)
    (account : Account) : Account :=
  match redeployAccount account.toBaseWalletAccount with
  | Except.ok result => account.updateDeployTx result.txHash
  | Except.error _ => account

/-- The routes the component navigates or links to. -/
inductive Route where
  | userReview
  | networkUpgradeV4
  | accountUpgradeV4
  | funding
deriving DecidableEq, Repr

/-- Token list display variant: `currencyDisplayEnabled ? "default" : "no-currency"`. -/
inductive Variant where
  | default
  | noCurrency
deriving DecidableEq, Repr

/-- The values the external hooks, storages and pollers hand the component on a
single render.  Each field is the result of one hook call in the source:
`useAccountStatus`, `useAccountTransactions`, `getAccountName`,
`useBackupRequired`, `useCurrencyDisplayEnabled`, `useKeyValueStorage` (twice),
`useShouldShowNetworkUpgradeMessage`, `useFeeTokenBalance`,
`useTokensWithBalance`, the `useSWR` upgrade poller (`needsUpgradeData` is its
`data`, `none` while loading, defaulted to `false` in the source),
`useAccountIsDeployed`, and `useLocation().pathname`. -/
structure Hooks where
  status : String
  pendingTransactions : List String
  accountName : String
  isBackupRequired : Bool
  currencyDisplayEnabled : Bool
  transactionsBeforeReview : Nat
  userHasReviewed : Bool
  shouldShowNetworkUpgradeMessage : Bool
  feeTokenBalance : Option Int
  needsUpgradeData : Option Bool
  isValidating : Bool
  tokenError : Option String
  tokenDetails : List String
  tokenDetailsIsInitialising : Bool
  accountIsDeployed : Bool
  locationPathname : String
deriving DecidableEq, Repr

/-- `const hasPendingTransactions = pendingTransactions.length > 0`. -/
def hasPendingTransactions (h : Hooks) : Bool :=
  decide (h.pendingTransactions.length > 0)

/-- `const { data: needsUpgrade = false } = useSWR(...)`: the poller's data with
its `false` default while undefined. -/
def needsUpgrade (h : Hooks) : Bool :=
  h.needsUpgradeData.getD false

/-- `feeTokenBalance?.gt(0)` coerced by `Boolean(...)`: `false` when the balance
is still undefined. -/
def feeTokenBalanceGtZero (h : Hooks) : Bool :=
  match h.feeTokenBalance with
  | some b => decide (0 < b)
  | none => false

/-- `feeTokenBalance?.lte(0)` coerced by `Boolean(...)`: `false` when the
balance is still undefined. -/
def feeTokenBalanceLeZero (h : Hooks) : Bool :=
  match h.feeTokenBalance with
  | some b => decide (b ≤ 0)
  | none => false

/-- `const showUpgradeBanner = Boolean(needsUpgrade && !hasPendingTransactions
&& feeTokenBalance?.gt(0))`. -/
def showUpgradeBanner (h : Hooks) : Bool :=
  needsUpgrade h && !hasPendingTransactions h && feeTokenBalanceGtZero h

/-- `const showNoBalanceForUpgrade = Boolean(needsUpgrade &&
!hasPendingTransactions && feeTokenBalance?.lte(0))`. -/
def showNoBalanceForUpgrade (h : Hooks) : Bool :=
  needsUpgrade h && !hasPendingTransactions h && feeTokenBalanceLeZero h

/-- `const showBackupBanner = isBackupRequired && !showUpgradeBanner`. -/
def showBackupBanner (h : Hooks) : Bool :=
  h.isBackupRequired && !showUpgradeBanner h

/-- `const tokenListVariant = currencyDisplayEnabled ? "default" : "no-currency"`. -/
def tokenListVariant (h : Hooks) : Variant :=
  if h.currencyDisplayEnabled then Variant.default else Variant.noCurrency

/-- The fallback message used by both the boundary fallback and the inline
error fallback. -/
def fetchErrorMessage : String :=
  "Sorry, an error occurred fetching tokens"

/-- Props of a rendered `UpgradeBanner` element. -/
structure UpgradeBannerProps where
  canNotPay : Bool
  toRoute : Route
  stateFrom : Option String
deriving DecidableEq, Repr

/-- The child rendered inside the `ErrorBoundary`: either the
`ErrorBoundaryFallbackWithCopyError` element (when the token-balance hook
reported an error) or the `TokenList` with its `NewTokenButton` child. -/
inductive TokenBody where
  | errorFallbackWithCopyError (error : String) (message : String)
  | tokenList (showTitle : Bool) (isValidating : Bool) (tokens : List String)
      (variant : Variant) (newTokenButtonLoading : Bool)
deriving DecidableEq, Repr

/-- The `ErrorBoundary` section of the tree: its configured
`ErrorBoundaryFallbackWithCopyError` fallback message, and the child it wraps.
The token list only ever appears as the `body` of this structure, i.e. wrapped
by the single boundary. -/
structure TokenSection where
  fallbackMessage : String
  body : TokenBody
deriving DecidableEq, Repr

/-- The JSX tree the component returns, with each conditional child as a
field: `migrationBanner`, `backupBanner` record whether the corresponding
element was rendered; the two upgrade-banner fields hold the rendered
`UpgradeBanner` props or `none`; `tokenSection` holds the `ErrorBoundary`
section, `none` when `accountIsDeployed` is false and the whole section is
omitted.  Unconditional children (`StatusMessageBannerContainer`,
`AccountTokensButtons`, `TokenListMulticall`) are carried through their
props where the claims need them. -/
structure Render where
  headerStatus : String
  headerAccountName : String
  migrationBanner : Bool
  backupBanner : Bool
  upgradeBanner : Option UpgradeBannerProps
  noBalanceUpgradeBanner : Option UpgradeBannerProps
  tokenListMulticallVariant : Variant
  tokenSection : Option TokenSection
deriving DecidableEq, Repr

/-- The JSX tree produced on one render, as a function of the `account` prop,
the hook values, and the `hadPendingTransactions` ref.  The ref is only read
inside its effect, never in the returned JSX, so the result does not depend on
it. -/
def render (account : Account) (h : Hooks) (hadPendingTransactionsRef : Bool) :
    Render :=
  { headerStatus := h.status
    headerAccountName := h.accountName
    migrationBanner := isDeprecated account
    backupBanner := showBackupBanner h
    upgradeBanner :=
      if showUpgradeBanner h then
        some { canNotPay := false
               toRoute := Route.accountUpgradeV4
               stateFrom := some h.locationPathname }
      else none
    noBalanceUpgradeBanner :=
      if showNoBalanceForUpgrade h then
        some { canNotPay := true, toRoute := Route.funding, stateFrom := none }
      else none
    tokenListMulticallVariant := tokenListVariant h
    tokenSection :=
      if h.accountIsDeployed then
        some { fallbackMessage := fetchErrorMessage
               body :=
                 match h.tokenError with
                 | some e => TokenBody.errorFallbackWithCopyError e fetchErrorMessage
                 | none =>
                     TokenBody.tokenList (hasPendingTransactions h) h.isValidating
                       h.tokenDetails (tokenListVariant h)
                       h.tokenDetailsIsInitialising }
      else none }

/-- A scheduled `setTimeout`: its delay in milliseconds and the route the
callback navigates to. -/
structure Timeout where
  delayMs : Nat
  target : Route
deriving DecidableEq, Repr

/-- The user-review effect: schedules a 1000 ms navigation to the user-review
route exactly when the user has not reviewed and `transactionsBeforeReview`
equals 0. -/
def reviewEffect (userHasReviewed : Bool) (transactionsBeforeReview : Nat) :
    Option Timeout :=
  if !userHasReviewed && transactionsBeforeReview == 0 then
    some { delayMs := 1000, target := Route.userReview }
  else
    none

/-- The cleanup returned by the user-review effect:
`() => timeoutId && clearTimeout(timeoutId)`.  Given the timeout scheduled by
the effect (if any), after cleanup no timeout remains scheduled. -/
def reviewEffectCleanup (scheduled : Option Timeout) : Option Timeout :=
  match scheduled with
  | some _ => none
  | none => none

/-- Observable actions performed by the network-upgrade effect. -/
inductive Action where
  | updateLastShownNetworkUpgradeMessage
  | navigate (target : Route)
deriving DecidableEq, Repr

/-- The network-upgrade effect: when `shouldShowNetworkUpgradeMessage` is true
it calls `updateLastShownNetworkUpgradeMessage()` and then navigates to the
network-upgrade-V4 route; otherwise it does nothing. -/
def networkUpgradeEffect (shouldShowNetworkUpgradeMessage : Bool) : List Action :=
  if shouldShowNetworkUpgradeMessage then
    [Action.updateLastShownNetworkUpgradeMessage,
     Action.navigate Route.networkUpgradeV4]
  else []

/-- The `hadPendingTransactions` ref effect: given the ref's current value and
`hasPendingTransactions`, returns the ref's new value and whether
`mutate(false)` was called (on the true-to-false transition). -/
def pendingTransactionsEffect (hadPending hasPending : Bool) : Bool × Bool :=
  if hasPending then (true, false)
  else if hadPending then (false, true)
  else (false, false)

/-! Sample concrete values, used by witnesses and counterexamples. -/

/-- A sample base wallet account. -/
def sampleBase : BaseWalletAccount :=
  { address := "0x1", networkId := "mainnet-alpha" }

/-- A sample account. -/
def sampleAccount : Account :=
  { base := sampleBase, deployTx := none, deprecated := false }

/-- Hook values where the token-balance hook reports an error while the account
is not deployed. -/
def hooksErrorNotDeployed : Hooks :=
  { status := "ERROR"
    pendingTransactions := []
    accountName := "Account 1"
    isBackupRequired := false
    currencyDisplayEnabled := true
    transactionsBeforeReview := 5
    userHasReviewed := true
    shouldShowNetworkUpgradeMessage := false
    feeTokenBalance := some 1
    needsUpgradeData := some false
    isValidating := false
    tokenError := some "fetch failed"
    tokenDetails := []
    tokenDetailsIsInitialising := false
    accountIsDeployed := false
    locationPathname := "/account/tokens" }

/-- Same hook values but with the account deployed. -/
def hooksErrorDeployed : Hooks :=
  { hooksErrorNotDeployed with accountIsDeployed := true }

/-- Hook values with an upgrade needed but the fee token balance still
undefined. -/
def hooksFeeUndefined : Hooks :=
  { hooksErrorDeployed with
      feeTokenBalance := none
      needsUpgradeData := some true
      tokenError := none }

/-! Helper lemmas shared by several claim proofs. -/

/-- `showUpgradeBanner` holds exactly when the poller reports an upgrade, there
are no pending transactions and the fee token balance is defined and positive. -/
lemma showUpgradeBanner_iff (h : Hooks) :
    showUpgradeBanner h = true ↔
      (h.needsUpgradeData.getD false = true ∧ h.pendingTransactions = [] ∧
        ∃ b, h.feeTokenBalance = some b ∧ 0 < b) := by
  unfold showUpgradeBanner needsUpgrade hasPendingTransactions feeTokenBalanceGtZero
  cases hb : h.feeTokenBalance with
  | none => simp [hb, List.length_eq_zero]
  | some b => simp [hb, List.length_eq_zero, and_assoc]

/-- `showNoBalanceForUpgrade` holds exactly when the poller reports an upgrade,
there are no pending transactions and the fee token balance is defined and
non-positive. -/
lemma showNoBalanceForUpgrade_iff (h : Hooks) :
    showNoBalanceForUpgrade h = true ↔
      (h.needsUpgradeData.getD false = true ∧ h.pendingTransactions = [] ∧
        ∃ b, h.feeTokenBalance = some b ∧ b ≤ 0) := by
  unfold showNoBalanceForUpgrade needsUpgrade hasPendingTransactions feeTokenBalanceLeZero
  cases hb : h.feeTokenBalance with
  | none => simp [hb, List.length_eq_zero]
  | some b => simp [hb, List.length_eq_zero, and_assoc]

/-- The two upgrade conditions cannot hold together, and neither holds while
the fee token balance is undefined. -/
lemma upgrade_flags_exclusive (h : Hooks) :
    (¬(showUpgradeBanner h = true ∧ showNoBalanceForUpgrade h = true)) ∧
      (h.feeTokenBalance = none →
        showUpgradeBanner h = false ∧ showNoBalanceForUpgrade h = false) := by
  constructor
  · rintro ⟨h1, h2⟩
    obtain ⟨-, -, b, hb, hpos⟩ := (showUpgradeBanner_iff h).mp h1
    obtain ⟨-, -, b2, hb2, hle⟩ := (showNoBalanceForUpgrade_iff h).mp h2
    rw [hb] at hb2
    cases hb2
    exact absurd hpos (not_lt.mpr hle)
  · intro hfee
    unfold showUpgradeBanner showNoBalanceForUpgrade feeTokenBalanceGtZero
      feeTokenBalanceLeZero
    simp [hfee]

/-! The claims. -/

/-- C1: if the `redeployAccount` service call inside `onRedeploy` throws,
`onRedeploy` completes without raising (it is a total function into `Account`)
and the account's deploy-transaction state is unchanged; if it succeeds,
`account.updateDeployTx` is applied with the returned `txHash`. -/
theorem C1_onRedeploy (svc : BaseWalletAccount → Except String DeployResult)
    (account : Account) :
    (∀ e, svc account.toBaseWalletAccount = Except.error e →
      onRedeploy svc account = account) ∧
    (∀ r, svc account.toBaseWalletAccount = Except.ok r →
      onRedeploy svc account = account.updateDeployTx r.txHash) := by
  constructor
  · intro e he
    simp [onRedeploy, he]
  · intro r hr
    simp [onRedeploy, hr]

/-- Witness for C1 at a failing and a succeeding service. -/
theorem C1_onRedeploy_witness :
    onRedeploy (fun _ => Except.error "network failure") sampleAccount =
        sampleAccount ∧
      onRedeploy (fun _ => Except.ok { txHash := "0xabc" }) sampleAccount =
        sampleAccount.updateDeployTx "0xabc" :=
  ⟨(C1_onRedeploy (fun _ => Except.error "network failure") sampleAccount).1
      "network failure" rfl,
   (C1_onRedeploy (fun _ => Except.ok { txHash := "0xabc" }) sampleAccount).2
      { txHash := "0xabc" } rfl⟩

/-- C2 counterexample: the token-balance hook reports an error, yet nothing is
rendered in place of the token list — no error boundary and no copy-error
fallback appear at all, because the account is not deployed and the whole
section is omitted. -/
theorem C2_counterexample :
    hooksErrorNotDeployed.tokenError = some "fetch failed" ∧
      (render sampleAccount hooksErrorNotDeployed false).tokenSection = none :=
  ⟨rfl, rfl⟩

/-- C2 amended: when (and only when) the account is deployed, the token list
section renders as a single error boundary whose fallback carries the message
"Sorry, an error occurred fetching tokens" with the copy-error component;
inside it, the copy-error fallback is rendered in place of the `TokenList`
exactly when the token-balance hook reports an error; when the account is not
deployed, the boundary and the token list are absent entirely. -/
theorem C2_error_boundary (account : Account) (h : Hooks) (r : Bool) :
    (h.accountIsDeployed = false →
      (render account h r).tokenSection = none) ∧
    (h.accountIsDeployed = true → ∀ e, h.tokenError = some e →
      (render account h r).tokenSection =
        some { fallbackMessage := fetchErrorMessage
               body := TokenBody.errorFallbackWithCopyError e fetchErrorMessage }) ∧
    (h.accountIsDeployed = true → h.tokenError = none →
      (render account h r).tokenSection =
        some { fallbackMessage := fetchErrorMessage
               body := TokenBody.tokenList (hasPendingTransactions h)
                 h.isValidating h.tokenDetails (tokenListVariant h)
                 h.tokenDetailsIsInitialising }) := by
  refine ⟨?_, ?_, ?_⟩
  · intro hd
    simp [render, hd]
  · intro hd e he
    simp [render, hd, he]
  · intro hd he
    simp [render, hd, he]

/-- Witness for the amended C2: deployed account with a reported error renders
the copy-error fallback inside the boundary. -/
theorem C2_error_boundary_witness :
    (render sampleAccount hooksErrorDeployed false).tokenSection =
      some { fallbackMessage := fetchErrorMessage
             body := TokenBody.errorFallbackWithCopyError "fetch failed"
               fetchErrorMessage } :=
  (C2_error_boundary sampleAccount hooksErrorDeployed false).2.1 rfl
    "fetch failed" rfl

/-- C3: the upgrade banner renders — with the account-upgrade route and the
current pathname as link state — if and only if the upgrade poller reports an
upgrade, there are no pending transactions, and the fee token balance is
defined and strictly greater than zero. -/
theorem C3_upgrade_banner (account : Account) (h : Hooks) (r : Bool) :
    ((render account h r).upgradeBanner =
        some { canNotPay := false
               toRoute := Route.accountUpgradeV4
               stateFrom := some h.locationPathname } ↔
      (h.needsUpgradeData.getD false = true ∧ h.pendingTransactions = [] ∧
        ∃ b, h.feeTokenBalance = some b ∧ 0 < b)) ∧
    ((render account h r).upgradeBanner = none ∨
      (render account h r).upgradeBanner =
        some { canNotPay := false
               toRoute := Route.accountUpgradeV4
               stateFrom := some h.locationPathname }) := by
  have key := showUpgradeBanner_iff h
  cases hc : showUpgradeBanner h with
  | false =>
      rw [hc] at key
      constructor
      · constructor
        · intro hcontra
          simp [render, hc] at hcontra
        · intro hrhs
          exact absurd (key.mpr hrhs) (by simp)
      · left
        simp [render, hc]
  | true =>
      rw [hc] at key
      constructor
      · simp [render, hc]
        exact key.mp rfl
      · right
        simp [render, hc]

/-- C4: the no-balance upgrade banner renders — with `canNotPay` and the
funding route — if and only if the upgrade poller reports an upgrade, there
are no pending transactions, and the fee token balance is defined and less
than or equal to zero. -/
theorem C4_no_balance_banner (account : Account) (h : Hooks) (r : Bool) :
    ((render account h r).noBalanceUpgradeBanner =
        some { canNotPay := true, toRoute := Route.funding, stateFrom := none } ↔
      (h.needsUpgradeData.getD false = true ∧ h.pendingTransactions = [] ∧
        ∃ b, h.feeTokenBalance = some b ∧ b ≤ 0)) ∧
    ((render account h r).noBalanceUpgradeBanner = none ∨
      (render account h r).noBalanceUpgradeBanner =
        some { canNotPay := true, toRoute := Route.funding, stateFrom := none }) := by
  have key := showNoBalanceForUpgrade_iff h
  cases hc : showNoBalanceForUpgrade h with
  | false =>
      rw [hc] at key
      constructor
      · constructor
        · intro hcontra
          simp [render, hc] at hcontra
        · intro hrhs
          exact absurd (key.mpr hrhs) (by simp)
      · left
        simp [render, hc]
  | true =>
      rw [hc] at key
      constructor
      · simp [render, hc]
        exact key.mp rfl
      · right
        simp [render, hc]

/-- C5: the backup (recovery) banner renders if and only if a backup is
required and the upgrade banner is not shown. -/
theorem C5_backup_banner (account : Account) (h : Hooks) (r : Bool) :
    (render account h r).backupBanner = true ↔
      (h.isBackupRequired = true ∧ (render account h r).upgradeBanner = none) := by
  cases hc : showUpgradeBanner h <;>
    simp [render, showBackupBanner, hc]

/-- C6: the migration banner renders if and only if `isDeprecated(account)`,
independently of every hook value and of the ref state. -/
theorem C6_migration_banner (account : Account) (h : Hooks) (r : Bool) :
    (render account h r).migrationBanner = isDeprecated account :=
  rfl

/-- C7: a 1000 ms navigation to the user-review route is scheduled exactly
when the user has not reviewed and `transactionsBeforeReview` equals 0; in
every other combination nothing is scheduled; and cleanup leaves no scheduled
timeout. -/
theorem C7_review_timeout (reviewed : Bool) (before : Nat) :
    (reviewed = false ∧ before = 0 →
      reviewEffect reviewed before =
        some { delayMs := 1000, target := Route.userReview }) ∧
    (¬(reviewed = false ∧ before = 0) →
      reviewEffect reviewed before = none) ∧
    (∀ s, reviewEffectCleanup s = none) := by
  refine ⟨?_, ?_, ?_⟩
  · rintro ⟨hr, hb⟩
    simp [reviewEffect, hr, hb]
  · intro hne
    rcases Bool.eq_false_or_eq_true reviewed with hr | hr
    · simp [reviewEffect, hr]
    · have hb : before ≠ 0 := fun hb => hne ⟨hr, hb⟩
      simp [reviewEffect, hr, hb]
  · intro s
    cases s <;> rfl

/-- Witness for C7: scheduled at (not reviewed, 0), not scheduled once the
user has reviewed. -/
theorem C7_review_timeout_witness :
    reviewEffect false 0 = some { delayMs := 1000, target := Route.userReview } ∧
      reviewEffect true 0 = none :=
  ⟨(C7_review_timeout false 0).1 ⟨rfl, rfl⟩,
   (C7_review_timeout true 0).2.1 (by simp)⟩

/-- C8: when `shouldShowNetworkUpgradeMessage` is true the effect calls
`updateLastShownNetworkUpgradeMessage` and then navigates to the
network-upgrade-V4 route, in that order; when it is false it performs no
action. -/
theorem C8_network_upgrade (s : Bool) :
    (s = true → networkUpgradeEffect s =
      [Action.updateLastShownNetworkUpgradeMessage,
       Action.navigate Route.networkUpgradeV4]) ∧
    (s = false → networkUpgradeEffect s = []) := by
  constructor <;> intro hs <;> simp [networkUpgradeEffect, hs]

/-- Witness for C8 at both values of the flag. -/
theorem C8_network_upgrade_witness :
    networkUpgradeEffect true =
        [Action.updateLastShownNetworkUpgradeMessage,
         Action.navigate Route.networkUpgradeV4] ∧
      networkUpgradeEffect false = [] :=
  ⟨(C8_network_upgrade true).1 rfl, (C8_network_upgrade false).2 rfl⟩

/-- C9: the rendered tree is a deterministic function of the account prop and
the hook values: two renders with equal account and equal hook values produce
equal trees, whatever the `hadPendingTransactions` ref holds (the only other
per-instance state, read only by its effect). -/
theorem C9_render_deterministic (a a2 : Account) (h h2 : Hooks) (r r2 : Bool)
    (ha : a = a2) (hh : h = h2) :
    render a h r = render a2 h2 r2 := by
  subst ha
  subst hh
  rfl

/-- Witness for C9: equal inputs with different ref states give the same tree. -/
theorem C9_render_deterministic_witness :
    render sampleAccount hooksErrorDeployed true =
      render sampleAccount hooksErrorDeployed false :=
  C9_render_deterministic sampleAccount sampleAccount hooksErrorDeployed
    hooksErrorDeployed true false rfl rfl

/-- C10: the two upgrade banners are never both shown, and while the fee token
balance is undefined neither is shown even if an upgrade is needed. -/
theorem C10_upgrade_banners_exclusive (account : Account) (h : Hooks) (r : Bool) :
    (¬((render account h r).upgradeBanner ≠ none ∧
        (render account h r).noBalanceUpgradeBanner ≠ none)) ∧
    (h.feeTokenBalance = none →
      (render account h r).upgradeBanner = none ∧
        (render account h r).noBalanceUpgradeBanner = none) := by
  obtain ⟨hexcl, hnone⟩ := upgrade_flags_exclusive h
  constructor
  · rintro ⟨h1, h2⟩
    apply hexcl
    constructor
    · by_contra hc
      have : showUpgradeBanner h = false := by
        cases hv : showUpgradeBanner h
        · rfl
        · exact absurd hv hc
      exact h1 (by simp [render, this])
    · by_contra hc
      have : showNoBalanceForUpgrade h = false := by
        cases hv : showNoBalanceForUpgrade h
        · rfl
        · exact absurd hv hc
      exact h2 (by simp [render, this])
  · intro hfee
    obtain ⟨h1, h2⟩ := hnone hfee
    exact ⟨by simp [render, h1], by simp [render, h2]⟩

/-- Witness for C10: at an undefined fee balance with `needsUpgrade` true,
neither upgrade banner renders. -/
theorem C10_upgrade_banners_exclusive_witness :
    (render sampleAccount hooksFeeUndefined false).upgradeBanner = none ∧
      (render sampleAccount hooksFeeUndefined false).noBalanceUpgradeBanner =
        none :=
  (C10_upgrade_banners_exclusive sampleAccount hooksFeeUndefined false).2 rfl

end AccountTokens
